import Mathlib

/-
Verification of the solstis_tcpip command protocol engine.

Shallow embedding of src/solstis_tcpip/solstis_core.py and
src/solstis_tcpip/solstis_constants.py: the exception class SolstisError,
message verification (_verify_messsage), response classification
(_check_response), transmission-id allocation (_allocate_transmission_id),
the static status catalog (status_messages_severity), the Commands
enumeration, the dispatch table (_command), and the tune_etalon and
fast_scan_poll wrappers.

Python values that can appear in a message parameter or as a status-catalog
key are modelled by PyVal; Python floats are modelled as rationals.
Fallible code returns Except PyError; Python exceptions other than
SolstisError (KeyError, NameError, AssertionError) get their own PyError
constructors so control flow stays total and faithful.
-/

/-- A Python value usable as a message parameter or a status-catalog key:
the protocol uses ints for most status codes and strings for a few
(start_link, pba_reference_status); floats are modelled as rationals. -/
inductive PyVal where
  | int (n : Int)
  | str (s : String)
  | rat (q : Rat)
deriving DecidableEq, Repr

/-- The SolstisError exception object: fields are the attributes set by
SolstisError.__init__ in solstis_core.py. -/
structure SolstisError where
  message : String
  severity : Nat
deriving DecidableEq, Repr

/-- SolstisError.__init__(self, message, severity=0) from solstis_core.py
lines 21-23. Note the source assigns `self.severity = 0` (a literal zero),
not the severity argument, even though the class docstring documents the
severity attribute as the severity of the error. The embedding reproduces
this faithfully. -/
def SolstisError.init (message : String) (severity : Nat) : SolstisError :=
  { message := message, severity := 0 }

/-- The severity argument is unused by __init__; kept in the signature to
mirror the Python signature. -/
theorem SolstisError.init_severity (message : String) (severity : Nat) :
    (SolstisError.init message severity).severity = 0 := rfl

/-- Exceptions a modelled call can raise: a SolstisError, or a built-in
Python exception (KeyError from a failed dict lookup, NameError from an
unbound name, AssertionError from a failed assert statement). -/
inductive PyError where
  | solstis (e : SolstisError)
  | keyError (key : String)
  | nameError (name : String)
  | assertionError (msg : String)
deriving DecidableEq, Repr

/-- A protocol message envelope. On the wire the transmission id is a
one-element list of ints (spec section 6); the single element is modelled
directly as a Nat. The parameters dict is an association list; only the
"status" key is consulted by _check_response. -/
structure Message where
  transmission_id : Nat
  op : String
  parameters : List (String × PyVal)
deriving DecidableEq, Repr

/-- Stands in for Python str(message), which is interpolated into the
parse_fail error text; the exact rendering carries no semantic weight. -/
def Message.str (m : Message) : String :=
  "message transmission_id [" ++ toString m.transmission_id ++ "] op " ++ m.op

/-- SolstisCore._verify_messsage from solstis_core.py lines 75-101.
Checks, in source order: (1) op == "parse_fail" raises SolstisError(.., 10);
(2) when an expected transmission_id is given and differs from the
message id, raises SolstisError(.., 10); (3) when an expected op is given
and differs from the message op, raises SolstisError(message) with NO
severity argument (the Python call site omits it, so the default 0 is
used). Returns unit when all checks pass. -/
def verify_messsage (message : Message) (op : Option String)
    (transmission_id : Option Nat) : Except PyError Unit :=
  let msgID := message.transmission_id
  let msgOP := message.op
  if msgOP = "parse_fail" then
    Except.error (PyError.solstis (SolstisError.init
      ("Mesage with ID " ++ toString msgID ++ " failed to parse." ++ "\n\n"
        ++ Message.str message) 10))
  else
    let idCheck : Except PyError Unit :=
      match transmission_id with
      | some tid =>
        if msgID ≠ tid then
          Except.error (PyError.solstis (SolstisError.init
            ("Message with ID" ++ toString msgID
              ++ " did not match expected ID of: " ++ toString tid) 10))
        else Except.ok ()
      | none => Except.ok ()
    match idCheck with
    | Except.error e => Except.error e
    | Except.ok _ =>
      match op with
      | some o =>
        if msgOP ≠ o then
          Except.error (PyError.solstis (SolstisError.init
            ("Message with ID" ++ toString msgID
              ++ "with operation command of \x27" ++ msgOP
              ++ "\x27 did not match expected operation command of: " ++ o) 0))
        else Except.ok ()
      | none => Except.ok ()

/-- Sanity check that a well-correlated reply passes verification. -/
example :
    verify_messsage { transmission_id := 1, op := "ping_reply", parameters := [] }
      (some "ping_reply") (some 1) = Except.ok () := by
  rfl

/-- The Commands enumeration from solstis_constants.py lines 67-120, as
(member name, value) pairs in declaration order. -/
def Commands : List (String × Nat) := [
  ("SET_WAVE_M", 1),
  ("POLL_WAVE_M", 2),
  ("LOCK_WAVE_M", 3),
  ("STOP_WAVE_M", 4),
  ("MOVE_WAVE_T", 5),
  ("POLL_MOVE_WAVE_T", 6),
  ("STOP_MOVE_WAVE_T", 7),
  ("TUNE_ETALON", 8),
  ("TUNE_CAVITY", 9),
  ("FINE_TUNE_CAVITY", 10),
  ("TUNE_RESONATOR", 11),
  ("FINE_TUNE_RESONATOR", 12),
  ("ETALON_LOCK", 13),
  ("ETALON_LOCK_STATUS", 14),
  ("REF_CAVITY_LOCK", 15),
  ("REF_CAVITY_LOCK_STATUS", 16),
  ("ECD_LOCK", 17),
  ("ECD_LOCK_STATUS", 18),
  ("MONITOR_A", 19),
  ("MONITOR_B", 20),
  ("SELECT_PROFILE", 21),
  ("GET_STATUS", 22),
  ("GET_ALIGNMENT_STATUS", 23),
  ("BEAM_ALIGNMENT", 24),
  ("BEAM_ADJUST_X", 25),
  ("BEAM_ADJUST_Y", 26),
  ("SCAN_STITCH_INITIALISE", 27),
  ("SCAN_STITCH_OP", 28),
  ("SCAN_STITCH_STATUS", 29),
  ("SCAN_STITCH_OUTPUT", 30),
  ("TERASCAN_OUTPUT", 31),
  ("FAST_SCAN_START", 32),
  ("FAST_SCAN_POLL", 33),
  ("FAST_SCAN_STOP", 34),
  ("FAST_SCAN_STOP_NR", 35),
  ("PBA_REFERENCE", 36),
  ("PBA_REFERENCE_STATUS", 37),
  ("GET_WAVELENGTH_RANGE", 38),
  ("TERASCAN_CONTINUE", 39),
  ("READ_ALL_ADC", 40),
  ("SET_WAVE_TOLERANCE_M", 41),
  ("SET_WAVE_LOCK_TOLERANCE_M", 42),
  ("DIGITAL_PID_CONTROL", 43),
  ("DIGITAL_PID_POLL", 44),
  ("SET_W_METER_CHANNEL", 45),
  ("LOCK_WAVE_M_FIXED", 46),
  ("GPIO_OUTPUT", 47),
  ("DAC_RAMPING", 48),
  ("DAC_RAMPING_POLL", 49),
  ("DIGITAL_POT_OUTPUT", 50),
  ("DAC_OUTPUT", 51),
  ("START_LINK", 100),
  ("PING", 101)]

/-- Python str.lower, modelled character-wise (the enum member names are
plain ASCII). -/
def str_lower (s : String) : String :=
  String.mk (s.data.map Char.toLower)

/-- Commands.command_op: the member name lowercased (self.name.lower()). -/
def command_op (member : String × Nat) : String :=
  str_lower member.1

/-- Commands.command_op_reply: the member name lowercased plus "_reply". -/
def command_op_reply (member : String × Nat) : String :=
  str_lower member.1 ++ "_reply"

/-- Commands.has_command_op_reply from solstis_constants.py. -/
def Commands.has_command_op_reply (op : String) : Bool :=
  Commands.any (fun member => op == command_op_reply member)

/-- Commands.get_value_from_op_reply from solstis_constants.py: the value of
the first member whose command_op_reply equals op, else None. -/
def Commands.get_value_from_op_reply (op : String) : Option Nat :=
  (Commands.find? (fun member => command_op_reply member == op)).map (fun m => m.2)

example : Commands.get_value_from_op_reply "set_wave_m_reply" = some 1 := by rfl

example : Commands.has_command_op_reply "bogus_reply" = false := by rfl
/-- The static status catalog status_messages_severity from
solstis_constants.py lines 157-411: operation index to a list of
(status code, message text, severity) entries, in source order. -/
def status_messages_severity : List (Nat × List (PyVal × String × Nat)) := [
  (1, [
    (PyVal.int 0, "command successful", 0),
    (PyVal.int 1, "no link to wavelength meter or no meter configured", 2),
    (PyVal.int 2, "Wavelength out of range", 2)
  ]),
  (2, [
    (PyVal.int 0, "tuning software not active", 2),
    (PyVal.int 1, "No link to wavelength meter or no meter configured.", 2),
    (PyVal.int 2, "Tuning in progress.", 1),
    (PyVal.int 3, "pre V60: wavelength lock is on, post V60: wavelength lock being maintained", 0)
  ]),
  (3, [
    (PyVal.int 0, "operation successful", 0),
    (PyVal.int 1, "No link to wavelength meter or no meter configured", 2)
  ]),
  (4, [
    (PyVal.int 0, "operation successful", 0),
    (PyVal.int 1, "No link to wavelength meter", 2)
  ]),
  (5, [
    (PyVal.int 0, "operation successful", 0),
    (PyVal.int 1, "command failed", 2),
    (PyVal.int 2, "wavelength out of range", 2)
  ]),
  (6, [
    (PyVal.int 0, "tuning completed", 0),
    (PyVal.int 1, "tuning in progress", 1),
    (PyVal.int 2, "tuning operation failed", 2)
  ]),
  (7, [
    (PyVal.int 0, "operation completed", 0)
  ]),
  (8, [
    (PyVal.int 0, "operation completed", 0),
    (PyVal.int 1, "setting out of range", 2),
    (PyVal.int 2, "command failed.", 2)
  ]),
  (9, [
    (PyVal.int 0, "operation completed", 0),
    (PyVal.int 1, "setting out of range", 2),
    (PyVal.int 2, "command failed.", 2)
  ]),
  (10, [
    (PyVal.int 0, "operation completed", 0),
    (PyVal.int 1, "setting out of range", 2),
    (PyVal.int 2, "command failed.", 2)
  ]),
  (11, [
    (PyVal.int 0, "operation completed", 0),
    (PyVal.int 1, "setting out of range", 2),
    (PyVal.int 2, "command failed.", 2)
  ]),
  (12, [
    (PyVal.int 0, "operation completed", 0),
    (PyVal.int 1, "setting out of range", 2),
    (PyVal.int 2, "command failed.", 2)
  ]),
  (13, [
    (PyVal.int 0, "operation completed", 0),
    (PyVal.int 1, "operation failed", 2)
  ]),
  (14, [
    (PyVal.int 0, "operation completed", 0),
    (PyVal.int 1, "command failed", 2)
  ]),
  (15, [
    (PyVal.int 0, "operation completed", 0),
    (PyVal.int 1, "operation failed", 2)
  ]),
  (16, [
    (PyVal.int 0, "operation completed", 0),
    (PyVal.int 1, "command failed", 2)
  ]),
  (17, [
    (PyVal.int 0, "operation completed", 0),
    (PyVal.int 1, "operation failed", 2),
    (PyVal.int 2, "ecd not fitted", 2)
  ]),
  (18, [
    (PyVal.int 0, "operation completed", 0),
    (PyVal.int 1, "command failed", 2)
  ]),
  (19, [
    (PyVal.int 0, "operation completed", 0),
    (PyVal.int 1, "operation failed", 2)
  ]),
  (20, [
    (PyVal.int 0, "operation completed", 0),
    (PyVal.int 1, "operation failed", 2)
  ]),
  (21, [
    (PyVal.int 0, "operation completed", 0),
    (PyVal.int 1, "operation failed", 2)
  ]),
  (22, [
    (PyVal.int 0, "operation completed", 0),
    (PyVal.int 1, "operation failed", 2)
  ]),
  (23, [
    (PyVal.int 0, "No message", 0)
  ]),
  (24, [
    (PyVal.int 0, "Operation completed", 0),
    (PyVal.int 1, "Operation failed, not fitted", 2)
  ]),
  (25, [
    (PyVal.int 0, "No message", 0)
  ]),
  (26, [
    (PyVal.int 0, "Operation completed", 0),
    (PyVal.int 1, "Operation failed, not fitted", 2),
    (PyVal.int 2, "operation failed, value OOR", 2),
    (PyVal.int 3, "operation failed, not in manual mode", 2)
  ]),
  (27, [
    (PyVal.int 0, "operation completed", 0),
    (PyVal.int 1, "start out of range", 2),
    (PyVal.int 2, "stop out of range", 2),
    (PyVal.int 3, "scan out of range", 2),
    (PyVal.int 4, "TeraScan not available", 2)
  ]),
  (28, [
    (PyVal.int 0, "operation completed", 0),
    (PyVal.int 1, "operation failed", 2),
    (PyVal.int 2, "TeraScan not available", 2)
  ]),
  (29, [
    (PyVal.int 0, "not active", 0),
    (PyVal.int 1, "in progress", 1),
    (PyVal.int 2, "TeraScan not available", 2)
  ]),
  (30, [
    (PyVal.int 0, "operation completed", 0),
    (PyVal.int 1, "operation failed", 2),
    (PyVal.int 2, "Unused", 0),
    (PyVal.int 3, "TeraScan not available", 2)
  ]),
  (31, [
    (PyVal.int 0, "operation completed", 0),
    (PyVal.int 1, "operation failed", 2),
    (PyVal.int 2, "delay period out of range", 2),
    (PyVal.int 3, "update step out of range", 2),
    (PyVal.int 4, "TeraScan not available", 2)
  ]),
  (32, [
    (PyVal.int 0, "successful, scan in progress", 0),
    (PyVal.int 1, "failed, scan width too great for current tuning position", 2),
    (PyVal.int 2, "failed, reference cavity not fitted", 2),
    (PyVal.int 3, "failed, ERC not fitted", 2),
    (PyVal.int 4, "Invalid scan type", 2),
    (PyVal.int 5, "Time > 10000 seconds", 2)
  ]),
  (33, [
    (PyVal.int 0, "scan not in progress", 0),
    (PyVal.int 1, "scan in progress", 1),
    (PyVal.int 2, "reference cavity not fitted", 2),
    (PyVal.int 3, "ERC not fitted", 2),
    (PyVal.int 4, "Invalid scan type", 2)
  ]),
  (34, [
    (PyVal.int 0, "operation completed", 0),
    (PyVal.int 1, "operation failed", 2),
    (PyVal.int 2, "reference cavity not fitted", 2),
    (PyVal.int 3, "ERC not fitted", 2),
    (PyVal.int 4, "Invalid scan type", 2)
  ]),
  (35, [
    (PyVal.int 0, "operation completed", 0),
    (PyVal.int 1, "operation failed", 2),
    (PyVal.int 2, "reference cavity not fitted", 2),
    (PyVal.int 3, "unused", 0),
    (PyVal.int 4, "Invalid scan type", 2)
  ]),
  (36, [
    (PyVal.int 0, "operation completed", 0),
    (PyVal.int 1, "operation failed, not fitted", 2)
  ]),
  (37, [
    (PyVal.str "not_fitted", "Beam alignment is not fitted to this system.", 2),
    (PyVal.str "off", "PBA reference is not running.", 0),
    (PyVal.str "tuning", "The system is tuning to the reference wavelength.", 1),
    (PyVal.str "optimising", "The system is optimising the PBA.", 1)
  ]),
  (38, [
    (PyVal.int 0, "No message", 0)
  ]),
  (39, [
    (PyVal.int 0, "operation completed", 0),
    (PyVal.int 1, "operation failed, TeraScan was not paused", 2),
    (PyVal.int 2, "TeraScan not available", 2)
  ]),
  (40, [
    (PyVal.int 0, "operation completed", 0),
    (PyVal.int 1, "operation failed", 2)
  ]),
  (41, [
    (PyVal.int 0, "operation successful", 0),
    (PyVal.int 1, "No link to wavelength meter or meter not configured", 2),
    (PyVal.int 2, "Tolerance value out of range", 2)
  ]),
  (42, [
    (PyVal.int 0, "operation successful", 0),
    (PyVal.int 1, "No link to wavelength meter or meter not configured", 2),
    (PyVal.int 2, "Tolerance value out of range", 2)
  ]),
  (43, [
    (PyVal.int 0, "operation successful", 0),
    (PyVal.int 1, "command failed", 2)
  ]),
  (44, [
    (PyVal.int 0, "operation successful", 0),
    (PyVal.int 1, "command failed", 2)
  ]),
  (45, [
    (PyVal.int 0, "operation successful", 0),
    (PyVal.int 1, "command failed", 2),
    (PyVal.int 2, "channel out of range", 2)
  ]),
  (46, [
    (PyVal.int 0, "operation successful", 0),
    (PyVal.int 1, "No link to wavelength meter or no meter configured", 2)
  ]),
  (47, [
    (PyVal.int 0, "operation successful", 0),
    (PyVal.int 1, "operation failed", 2)
  ]),
  (48, [
    (PyVal.int 0, "operation successful", 0),
    (PyVal.int 1, "operation failed", 2)
  ]),
  (49, [
    (PyVal.int 0, "operation successful", 0),
    (PyVal.int 1, "operation failed", 2)
  ]),
  (50, [
    (PyVal.int 0, "operation successful", 0),
    (PyVal.int 1, "operation failed", 2)
  ]),
  (51, [
    (PyVal.int 0, "operation successful", 0),
    (PyVal.int 1, "operation failed", 2),
    (PyVal.int 2, "output value out of range", 2)
  ]),
  (100, [
    (PyVal.str "ok", "operation successful", 0),
    (PyVal.str "failed", "failed to start link", 2)
  ]),
  (101, [
    (PyVal.int 0, "No message", 0)
  ])
]

/-- Python dict membership/lookup on an association list: first binding of
the key, if any. -/
def assoc_lookup {α : Type} [BEq α] {β : Type} (l : List (α × β)) (key : α) :
    Option β :=
  (l.find? (fun p => p.1 == key)).map (fun p => p.2)

/-- Lookup of an operation index in status_messages_severity. -/
def lookup_catalog (idx : Nat) : Option (List (PyVal × String × Nat)) :=
  assoc_lookup status_messages_severity idx

/-- Lookup of a status code among one operation's catalog entries. -/
def lookup_status (entries : List (PyVal × String × Nat)) (status : PyVal) :
    Option (String × Nat) :=
  assoc_lookup entries status

/-- SolstisCore._check_response from solstis_core.py lines 1375-1396.
Reads the reply op and its status parameter (defaulting to 0 when the
"status" key is absent), then runs _handle_operation: when the op is a
known command reply op, a cataloged status with nonzero severity raises
SolstisError(message, severity), a status absent from the catalog raises
SolstisError("Unknown error.", severity=2); an unknown op raises
SolstisError("Invalid operation.", severity=2). The keyError branches
model Python dict lookups that cannot succeed (catalog key missing for a
known command, or indexing the catalog with op_index None); they are
unreachable because every Commands value is a catalog key. -/
def check_response (response : Message) : Except PyError Unit :=
  let operation := response.op
  let status : PyVal :=
    match assoc_lookup response.parameters "status" with
    | some v => v
    | none => PyVal.int 0
  if Commands.has_command_op_reply operation then
    match Commands.get_value_from_op_reply operation with
    | some op_index =>
      match lookup_catalog op_index with
      | some entries =>
        match lookup_status entries status with
        | some entry =>
          if entry.2 ≠ 0 then
            Except.error (PyError.solstis (SolstisError.init entry.1 entry.2))
          else Except.ok ()
        | none =>
          Except.error (PyError.solstis (SolstisError.init "Unknown error." 2))
      | none => Except.error (PyError.keyError (toString op_index))
    | none => Except.error (PyError.keyError "None")
  else
    Except.error (PyError.solstis (SolstisError.init "Invalid operation." 2))

/-- Sanity check that a success-status reply classifies as success. -/
example :
    check_response { transmission_id := 9, op := "set_wave_m_reply",
                     parameters := [("status", PyVal.int 0)] } = Except.ok () := by
  rfl

/-- SolstisCore._allocate_transmission_id from solstis_core.py lines
1368-1373: increment the counter, reset it to 0 when it exceeds 2^30 - 1,
and return it. The returned id and the new stored counter are the same
value; the function is given the old counter and yields the new one. -/
def allocate_transmission_id (counter : Nat) : Nat :=
  let counter := counter + 1
  let max_transmission_id := 2 ^ 30 - 1
  if counter > max_transmission_id then 0 else counter

/-- The client state that the modelled calls read and write: the
process-local transmission-id counter, plus a log of every message handed
to send_command, in order (standing in for the bytes written to the
socket; the Transport itself is an external collaborator per spec
section 1). -/
structure CoreState where
  transmission_id_counter : Nat
  sent : List Message
deriving DecidableEq, Repr

/-- SolstisCore.send_command from solstis_core.py lines 47-61, with the
socket write modelled as appending the encoded envelope to the wire log.
The connection-absent branch is not modelled: the claims under proof
concern calls that fail before reaching the wire or that are given a
reply, so the connection state never decides them. -/
def send_command (st : CoreState) (transmission_id : Nat) (op : String)
    (params : List (String × PyVal)) : CoreState :=
  { st with
    sent := st.sent
      ++ [{ transmission_id := transmission_id, op := op, parameters := params }] }

/-- SolstisCore._tune_etalon from solstis_core.py lines 297-315: send the
tune_etalon request, receive the reply, and verify its op and
transmission id. The reply the transport would deliver is passed in as an
argument, since the instrument is external. -/
def tune_etalon_handler (reply : Message) (st : CoreState)
    (transmission_id : Nat) (setting : Rat) :
    Except PyError Message × CoreState :=
  let st := send_command st transmission_id "tune_etalon"
    [("setting", PyVal.rat setting)]
  match verify_messsage reply (some "tune_etalon_reply") (some transmission_id) with
  | Except.ok _ => (Except.ok reply, st)
  | Except.error e => (Except.error e, st)

/-- SolstisCore.command from solstis_core.py lines 1455-1469, specialised
to command_id = 8, which the dispatch table maps to _tune_etalon:
allocate a transmission id, run the handler, then _check_response. -/
def command_tune_etalon (reply : Message) (st : CoreState) (setting : Rat) :
    Except PyError Message × CoreState :=
  let tid := allocate_transmission_id st.transmission_id_counter
  let st := { st with transmission_id_counter := tid }
  match tune_etalon_handler reply st tid setting with
  | (Except.ok response, st) =>
    match check_response response with
    | Except.ok _ => (Except.ok response, st)
    | Except.error e => (Except.error e, st)
  | (Except.error e, st) => (Except.error e, st)

/-- SolstisCore.tune_etalon from solstis_core.py lines 1541-1548: the
public wrapper asserts 0 <= setting <= 100 (raising AssertionError
"Setting out of range." when the assert fails) before calling
self.command(8, setting=setting). -/
def tune_etalon (reply : Message) (st : CoreState) (setting : Rat) :
    Except PyError Message × CoreState :=
  if ¬ (0 ≤ setting ∧ setting ≤ 100) then
    (Except.error (PyError.assertionError "Setting out of range."), st)
  else
    command_tune_etalon reply st setting

/-- The Scan_Type_Fast enumeration from solstis_constants.py lines 28-64,
as (member name, value) pairs in declaration order. -/
def Scan_Type_Fast : List (String × Nat) := [
  ("ETALON_CONTINUOUS", 1),
  ("ETALON_SINGLE", 2),
  ("CAVITY_CONTINUOUS", 3),
  ("CAVITY_SINGLE", 4),
  ("RESONATOR_CONTINUOUS", 5),
  ("RESONATOR_SINGLE", 6),
  ("ECD_CONTINUOUS", 7),
  ("FRINGE_TEST", 8),
  ("RESONATOR_RAMP", 9),
  ("ECD_RAMP", 10),
  ("CAVITY_TRIANGULAR", 11),
  ("RESONATOR_TRIANGULAR", 12)]

/-- Scan_Type_Fast.has_value from solstis_constants.py. -/
def Scan_Type_Fast.has_value (value : Nat) : Bool :=
  Scan_Type_Fast.any (fun member => member.2 == value)

/-- SolstisCore.fast_scan_poll from solstis_core.py lines 1875-1887: the
public wrapper asserts Scan_Type_Fast.has_value(scan), then builds
kw_args as a dict whose entries name scan, width and time. The names
width and time are not bound anywhere in the function scope (its only
parameter is scan, and no enclosing or global binding exists for either),
so evaluating the dict display raises NameError on the first unbound
name, width, before self.command(33, ...) is reached: no transmission id
is allocated and nothing is sent, which the unchanged state expresses. -/
def fast_scan_poll (st : CoreState) (scan : Nat) :
    Except PyError Message × CoreState :=
  if ¬ Scan_Type_Fast.has_value scan then
    (Except.error (PyError.assertionError "Scan type not valid."), st)
  else
    (Except.error (PyError.nameError "width"), st)

/-- The dispatch table SolstisCore._command from solstis_core.py lines
1398-1452, as (numeric command id, bound method name) pairs in source
order. -/
def SolstisCore_command : List (Nat × String) := [
  (1, "_set_wave_m"),
  (2, "_poll_wave_m"),
  (3, "_lock_wave_m"),
  (4, "_stop_wave_m"),
  (5, "_move_wave_t"),
  (6, "_poll_move_wave_t"),
  (7, "_stop_move_wave_t"),
  (8, "_tune_etalon"),
  (9, "_tune_cavity"),
  (10, "_fine_tune_cavity"),
  (11, "_tune_resonator"),
  (12, "_fine_tune_resonator"),
  (13, "_etalon_lock"),
  (14, "_etalon_lock_status"),
  (15, "_cavity_lock"),
  (16, "_cavity_lock_status"),
  (17, "_ecd_lock"),
  (18, "_ecd_lock_status"),
  (19, "_monitor_a"),
  (20, "_monitor_b"),
  (21, "_select_profile"),
  (22, "_get_status"),
  (23, "_get_alignment_status"),
  (24, "_beam_alignment"),
  (25, "_beam_adjust_x"),
  (26, "_beam_adjust_y"),
  (27, "_scan_stitch_initialise"),
  (28, "_scan_stitch_op"),
  (29, "_scan_stitch_status"),
  (30, "_scan_stitch_output"),
  (31, "_terascan_output"),
  (32, "_fast_scan_start"),
  (33, "_fast_scan_poll"),
  (34, "_fast_scan_stop"),
  (35, "_fast_scan_stop_nr"),
  (36, "_pba_reference"),
  (37, "_pba_reference_status"),
  (38, "_get_wavelength_range"),
  (39, "_terascan_continue"),
  (40, "_read_all_adc"),
  (41, "_set_wave_tolerance_m"),
  (42, "_set_wave_lock_tolerance_m"),
  (43, "_digital_pid_control"),
  (44, "_digital_pid_poll"),
  (45, "_set_w_meter_channel"),
  (46, "_lock_wave_m_fixed"),
  (47, "_gpio_output"),
  (48, "_dac_ramping"),
  (49, "_dac_ramping_poll"),
  (50, "_digital_pot_output"),
  (51, "_dac_output"),
  (100, "_start_link"),
  (101, "_ping")]

/-- The numeric command ids that key the dispatch table. -/
def command_table_keys : List Nat :=
  SolstisCore_command.map (fun p => p.1)

/-- The numeric values of the Commands enumeration. -/
def Commands_values : List Nat :=
  Commands.map (fun p => p.2)

/-- C1: the claim that _check_response raises an error carrying the
catalog severity in its severity attribute fails on the code. At the
reply (op set_wave_m_reply, status 2) the Status Catalog assigns severity
2, yet the raised error object carries severity attribute 0, because
SolstisError.__init__ assigns self.severity = 0 instead of its severity
argument. -/
theorem check_response_discards_catalog_severity :
    (lookup_catalog 1).bind (fun entries => lookup_status entries (PyVal.int 2))
      = some ("Wavelength out of range", 2) ∧
    check_response { transmission_id := 9, op := "set_wave_m_reply",
                     parameters := [("status", PyVal.int 2)] }
      = Except.error (PyError.solstis
          { message := "Wavelength out of range", severity := 0 }) :=
  ⟨rfl, rfl⟩

/-- C2: for a known reply op with a status code absent from the catalog
(set_wave_m_reply has entries only for 0, 1, 2; here status is 99),
_check_response does fail closed, raising rather than returning success,
but the raised error object carries severity attribute 0, not the claimed
2, because SolstisError.__init__ discards its severity argument. -/
theorem check_response_unknown_status_severity_zero :
    (lookup_catalog 1).bind (fun entries => lookup_status entries (PyVal.int 99))
      = none ∧
    check_response { transmission_id := 9, op := "set_wave_m_reply",
                     parameters := [("status", PyVal.int 99)] }
      = Except.error (PyError.solstis
          { message := "Unknown error.", severity := 0 }) :=
  ⟨rfl, rfl⟩

/-- C3: for a message whose op is not parse_fail and whose transmission id
(2) differs from the expected one (1), _verify_messsage does raise and
never returns normally, but the raised error object carries severity
attribute 0, not the claimed 10: the raise site passes 10 to
SolstisError, and SolstisError.__init__ discards it. -/
theorem verify_messsage_id_mismatch_severity_zero :
    verify_messsage { transmission_id := 2, op := "ping_reply", parameters := [] }
        none (some 1)
      = Except.error (PyError.solstis
          { message := "Message with ID2 did not match expected ID of: 1",
            severity := 0 }) :=
  rfl

/-- C4: for a parse_fail message, _verify_messsage does raise
unconditionally (here even though the carried transmission id 7 equals the
expected id 7 and an expected op is supplied), but the raised error object
carries severity attribute 0, not the claimed 10: the raise site passes 10
to SolstisError, and SolstisError.__init__ discards it. -/
theorem verify_messsage_parse_fail_severity_zero :
    verify_messsage { transmission_id := 7, op := "parse_fail", parameters := [] }
        (some "ping_reply") (some 7)
      = Except.error (PyError.solstis
          { message := "Mesage with ID 7 failed to parse.\n\nmessage transmission_id [7] op parse_fail",
            severity := 0 }) :=
  rfl

/-- C5: for a message whose transmission id matches but whose op
(ping_reply) differs from the expected reply op (set_wave_m_reply),
_verify_messsage raises an error carrying severity 0, not the claimed 10:
this raise site passes no severity argument at all (the Python default 0),
and SolstisError.__init__ stores 0 regardless. -/
theorem verify_messsage_op_mismatch_severity_zero :
    verify_messsage { transmission_id := 1, op := "ping_reply", parameters := [] }
        (some "set_wave_m_reply") (some 1)
      = Except.error (PyError.solstis
          { message := "Message with ID1with operation command of \x27ping_reply\x27 did not match expected operation command of: set_wave_m_reply",
            severity := 0 }) :=
  rfl

/-- C6: the transmission-id allocator always advances: from counter state
c it returns and stores c + 1 when c + 1 is at most 2^30 - 1, returns and
stores 0 when c + 1 exceeds 2^30 - 1, always yields an id within
[0, 2^30 - 1], and never leaves the counter equal to its previous
value. -/
theorem allocate_transmission_id_advances (c : Nat) :
    (c + 1 ≤ 2 ^ 30 - 1 → allocate_transmission_id c = c + 1) ∧
    (2 ^ 30 - 1 < c + 1 → allocate_transmission_id c = 0) ∧
    allocate_transmission_id c ≤ 2 ^ 30 - 1 ∧
    allocate_transmission_id c ≠ c := by
  have hrw : allocate_transmission_id c
      = if c + 1 > 2 ^ 30 - 1 then 0 else c + 1 := rfl
  have hm : (2 : Nat) ^ 30 - 1 = 1073741823 := by norm_num
  rw [hrw, hm]
  by_cases hc : c + 1 > 1073741823
  · rw [if_pos hc]
    exact ⟨by omega, fun _ => rfl, by omega, by omega⟩
  · rw [if_neg hc]
    exact ⟨fun _ => rfl, by omega, by omega, by omega⟩

/-- Witness for C6 at the concrete counter state 5. -/
theorem allocate_transmission_id_advances_check :
    allocate_transmission_id 5 = 6 ∧ allocate_transmission_id 5 ≠ 5 :=
  ⟨(allocate_transmission_id_advances 5).1 (by norm_num),
   (allocate_transmission_id_advances 5).2.2.2⟩

/-- C7: for every scan value accepted by the Scan_Type_Fast validity
check, fast_scan_poll raises NameError on the unbound name width while
building kw_args, before self.command(33, ...) runs: the state is
returned unchanged, so no transmission id is allocated and no message is
sent, and the call never returns a reply. -/
theorem fast_scan_poll_raises_name_error (st : CoreState) (scan : Nat)
    (h : Scan_Type_Fast.has_value scan = true) :
    fast_scan_poll st scan = (Except.error (PyError.nameError "width"), st) := by
  simp [fast_scan_poll, h]

/-- Witness for C7 at scan type 1 (ETALON_CONTINUOUS) and an initial
state. -/
theorem fast_scan_poll_raises_name_error_check :
    Scan_Type_Fast.has_value 1 = true ∧
    fast_scan_poll { transmission_id_counter := 0, sent := [] } 1
      = (Except.error (PyError.nameError "width"),
         { transmission_id_counter := 0, sent := [] }) :=
  ⟨rfl,
   fast_scan_poll_raises_name_error
     { transmission_id_counter := 0, sent := [] } 1 rfl⟩

/-- C8: in the static status catalog, every operation index that has any
status entries has at least one entry with severity 0. -/
theorem catalog_success_presence :
    status_messages_severity.all
      (fun p => p.2.isEmpty || p.2.any (fun e => e.2.2 == 0)) = true :=
  rfl

/-- C9: the set of numeric command ids keying the dispatch table
SolstisCore._command is exactly the set of values of the Commands
enumeration: both are duplicate-free and they contain the same ids. -/
theorem command_table_matches_commands :
    command_table_keys.Nodup ∧ Commands_values.Nodup ∧
    ∀ n : Nat, n ∈ command_table_keys ↔ n ∈ Commands_values := by
  refine ⟨by decide, by decide, fun n => ?_⟩
  have h : command_table_keys = Commands_values := by rfl
  rw [h]

/-- C10: for every setting outside [0, 100], the public tune_etalon
wrapper fails on its local assert before self.command(8, ...) runs: the
state is returned unchanged, so nothing is sent on the wire and the
transmission-id counter is not advanced. -/
theorem tune_etalon_out_of_range_local_failure (reply : Message)
    (st : CoreState) (setting : Rat) (h : setting < 0 ∨ 100 < setting) :
    tune_etalon reply st setting
      = (Except.error (PyError.assertionError "Setting out of range."), st) ∧
    (tune_etalon reply st setting).2.transmission_id_counter
      = st.transmission_id_counter ∧
    (tune_etalon reply st setting).2.sent = st.sent := by
  have hcond : ¬ (0 ≤ setting ∧ setting ≤ 100) := by
    rcases h with h | h
    · exact fun hc => absurd hc.1 (not_le.mpr h)
    · exact fun hc => absurd hc.2 (not_le.mpr h)
  have heq : tune_etalon reply st setting
      = (Except.error (PyError.assertionError "Setting out of range."), st) := by
    unfold tune_etalon
    rw [if_pos hcond]
  rw [heq]
  exact ⟨rfl, rfl, rfl⟩

/-- Witness for C10 at setting 150, the example from the spec. -/
theorem tune_etalon_out_of_range_local_failure_check :
    tune_etalon { transmission_id := 3, op := "tune_etalon_reply",
                  parameters := [("status", PyVal.int 0)] }
        { transmission_id_counter := 0, sent := [] } 150
      = (Except.error (PyError.assertionError "Setting out of range."),
         { transmission_id_counter := 0, sent := [] }) :=
  (tune_etalon_out_of_range_local_failure
    { transmission_id := 3, op := "tune_etalon_reply",
      parameters := [("status", PyVal.int 0)] }
    { transmission_id_counter := 0, sent := [] } 150
    (Or.inr (by norm_num))).1
